import Mathlib

/-!
Verification of the unified package-manager facade (`src/main.py`).

The Python source is shallowly embedded: pure command construction becomes
Lean functions on strings; subprocess execution becomes a pure function of a
`CmdEnv` (what each argv would do) together with an explicit log of the argv
vectors actually executed; Python exceptions become an `Except`/`PyExc`
value; `sys.exit` becomes the `PyResult.exited` outcome.
-/

deriving instance DecidableEq for Except

namespace MtosmePkg

/-- One captured outcome of an external process: exit status plus the text on
the two standard streams. -/
structure ProcOutcome where
  exitCode : Int
  stdout : String
  stderr : String
  deriving DecidableEq

/-- The environment seen by subprocess invocations: for each argv vector,
the outcome the corresponding external process would produce. -/
abbrev CmdEnv := List String → ProcOutcome

/-- A Python value placed in an argv list: a string, or None
(`pkg.get('name')` can yield None, which then flows into a command). -/
abbrev PyArg := Option String

/-- Python `str()` of such a value: None renders as the string "None"
(as in the f-string interpolation on source line 114/146/178). -/
def pyStr : PyArg → String
  | none => "None"
  | some s => s

/-- Python truthiness of an optional string (`if version:` on source lines
113/145/177): None and the empty string are both falsy. -/
def pyTruthy : PyArg → Bool
  | none => false
  | some s => s != ""

/-- Lift a list of plain strings into argv elements. -/
def strCmd (c : List String) : List PyArg := c.map some

/-- One pending transaction action (source lines 299-303): the tuples
`('install', package, version)` and `('remove', package)`. -/
inductive Action where
  | install (package version : PyArg)
  | remove (package : PyArg)
  deriving DecidableEq

/-- Exceptions the modelled program can raise: the classes defined on source
lines 10-28 that are actually raised, plus the built-ins raised by `open`,
`subprocess.run` and the `ValueError` on line 335.  `transactionError`
carries the `failed_actions` list of (action, str(error)) pairs from line
315/317.  `unsupportedFormatError` exists only in the specification's error
taxonomy — the source never defines or raises such a class; the constructor
is included solely so statements taken from the spec can be compared against
the code's behaviour. -/
inductive PyExc where
  | fileNotFoundError
  | valueError (msg : String)
  | typeError (msg : String)
  | calledProcessError (cmd : List String) (returncode : Int) (stderr : Option String)
  | unsupportedDistributionError (msg : String)
  | transactionError (failed : List (Action × String))
  | unsupportedFormatError
  deriving DecidableEq

/-- Model of Python `str(e)` as used on source line 315.  The rendering of
`CalledProcessError` approximates CPython's message; no claim depends on the
exact text, only on the structured data also carried by the exception. -/
def excStr : PyExc → String
  | .fileNotFoundError => "No such file or directory"
  | .valueError m => m
  | .typeError m => m
  | .calledProcessError c r _ =>
      "Command " ++ String.intercalate " " c ++ " returned non-zero exit status "
        ++ toString r ++ "."
  | .unsupportedDistributionError m => m
  | .transactionError _ => "事务执行失败"
  | .unsupportedFormatError => "UnsupportedFormatError"

/-- Sequence an argv of Python values into plain strings; None anywhere makes
the whole argv invalid (subprocess raises TypeError before executing). -/
def allStrings : List PyArg → Option (List String)
  | [] => some []
  | none :: _ => none
  | some s :: rest => (allStrings rest).map (s :: ·)

/-- `subprocess.run(cmd, check=check)` with output NOT captured (the form used
by every mutating backend operation, lines 117-129/149-161/181-193): the
process runs (logged) and, when `check` is set and the exit status is
non-zero, `CalledProcessError` is raised.  Because stdout/stderr are not
piped in this form, the error's `stderr` attribute is `None`.  A None argv
element raises `TypeError` before any process is spawned (nothing logged). -/
def subprocessRun (env : CmdEnv) (cmd : List PyArg) (check : Bool) :
    Except PyExc ProcOutcome × List (List String) :=
  match allStrings cmd with
  | none => (.error (.typeError "expected str, bytes or os.PathLike object, not NoneType"), [])
  | some args =>
    let r := env args
    if check ∧ r.exitCode ≠ 0 then
      (.error (.calledProcessError args r.exitCode none), [args])
    else
      (.ok r, [args])

/-- The three backend families bound to a Facade (source classes on lines
109, 141, 173). -/
inductive BackendKind where
  | apt
  | dnf
  | pacman
  deriving DecidableEq

/-- APTBackend.install argv (source lines 111-116): base
`sudo apt install -y` plus token `f"{package}={version}"` when `version` is
truthy, else the raw `package` value. -/
def APTBackend.installCmd (package version : PyArg) : List PyArg :=
  strCmd ["sudo", "apt", "install", "-y"] ++
    [if pyTruthy version then some (pyStr package ++ "=" ++ pyStr version) else package]

/-- DNFBackend.install argv (source lines 143-148): token
`f"{package}-{version}"` when `version` is truthy. -/
def DNFBackend.installCmd (package version : PyArg) : List PyArg :=
  strCmd ["sudo", "dnf", "install", "-y"] ++
    [if pyTruthy version then some (pyStr package ++ "-" ++ pyStr version) else package]

/-- PacmanBackend.install argv (source lines 175-180): token
`f"{package}-{version}"` when `version` is truthy. -/
def PacmanBackend.installCmd (package version : PyArg) : List PyArg :=
  strCmd ["sudo", "pacman", "-S", "--noconfirm"] ++
    [if pyTruthy version then some (pyStr package ++ "-" ++ pyStr version) else package]

/-- Dispatch of install argv construction on the backend family. -/
def installCmd : BackendKind → PyArg → PyArg → List PyArg
  | .apt => APTBackend.installCmd
  | .dnf => DNFBackend.installCmd
  | .pacman => PacmanBackend.installCmd

/-- remove argv per family (source lines 119-120, 151-152, 183-184). -/
def removeCmd (k : BackendKind) (package : PyArg) : List PyArg :=
  match k with
  | .apt => strCmd ["sudo", "apt", "remove", "-y"] ++ [package]
  | .dnf => strCmd ["sudo", "dnf", "remove", "-y"] ++ [package]
  | .pacman => strCmd ["sudo", "pacman", "-R", "--noconfirm"] ++ [package]

/-- update argv per family (source lines 123-124, 155-156, 187-188). -/
def updateCmd : BackendKind → List String
  | .apt => ["sudo", "apt", "update"]
  | .dnf => ["sudo", "dnf", "check-update"]
  | .pacman => ["sudo", "pacman", "-Sy"]

/-- upgrade argv per family (source lines 127-128, 159-160, 191-192). -/
def upgradeCmd : BackendKind → List String
  | .apt => ["sudo", "apt", "upgrade", "-y"]
  | .dnf => ["sudo", "dnf", "upgrade", "-y"]
  | .pacman => ["sudo", "pacman", "-Su", "--noconfirm"]

/-- search argv per family (source lines 131-132, 163-164, 195-196). -/
def searchCmd (k : BackendKind) (package : String) : List String :=
  match k with
  | .apt => ["apt-cache", "search", package]
  | .dnf => ["dnf", "search", package]
  | .pacman => ["pacman", "-Ss", package]

/-- list_installed argv per family (source lines 136-137, 168-169, 200-201). -/
def listInstalledCmd : BackendKind → List String
  | .apt => ["dpkg", "--list"]
  | .dnf => ["rpm", "-qa"]
  | .pacman => ["pacman", "-Q"]

/-- Backend install: build the argv and run it with `check=True`
(lines 117/149/181). -/
def Backend.install (k : BackendKind) (env : CmdEnv) (package version : PyArg) :
    Except PyExc ProcOutcome × List (List String) :=
  subprocessRun env (installCmd k package version) true

/-- Backend remove with `check=True` (lines 121/153/185). -/
def Backend.remove (k : BackendKind) (env : CmdEnv) (package : PyArg) :
    Except PyExc ProcOutcome × List (List String) :=
  subprocessRun env (removeCmd k package) true

/-- Backend update with `check=True` (lines 125/157/189). -/
def Backend.update (k : BackendKind) (env : CmdEnv) :
    Except PyExc ProcOutcome × List (List String) :=
  subprocessRun env (strCmd (updateCmd k)) true

/-- Backend upgrade with `check=True` (lines 129/161/193). -/
def Backend.upgrade (k : BackendKind) (env : CmdEnv) :
    Except PyExc ProcOutcome × List (List String) :=
  subprocessRun env (strCmd (upgradeCmd k)) true

/-- Backend search: `subprocess.run(cmd, capture_output=True, text=True)` with
no `check`, returning `result.stdout` (lines 131-134/163-166/195-198). -/
def Backend.search (k : BackendKind) (env : CmdEnv) (package : String) :
    Except PyExc String × List (List String) :=
  match subprocessRun env (strCmd (searchCmd k package)) false with
  | (.ok r, log) => (.ok r.stdout, log)
  | (.error e, log) => (.error e, log)

/-- Backend list_installed: capture, no `check`, return `result.stdout`
(lines 136-139/168-171/200-203). -/
def Backend.listInstalled (k : BackendKind) (env : CmdEnv) :
    Except PyExc String × List (List String) :=
  match subprocessRun env (strCmd (listInstalledCmd k)) false with
  | (.ok r, log) => (.ok r.stdout, log)
  | (.error e, log) => (.error e, log)

/-- OSUtils.check_admin_or_exit (source lines 77-81): when the caller is not
admin, the whole process exits with status 1 (`sys.exit(1)`); otherwise it
returns normally. -/
def OSUtils.checkAdminOrExit (isAdmin : Bool) : Option Nat :=
  if isAdmin then none else some 1

/-- Outcome of a top-level operation: normal return, a propagating Python
exception, or a hard process exit (`sys.exit`). -/
inductive PyResult (α : Type) where
  | ok (a : α)
  | exc (e : PyExc)
  | exited (code : Nat)
  deriving DecidableEq

/-- View an exception-throwing computation as a `PyResult`. -/
def liftRun {α : Type} : Except PyExc α × List (List String) → PyResult α × List (List String)
  | (.ok a, log) => (.ok a, log)
  | (.error e, log) => (.exc e, log)

/-- PackageManager.install (source lines 223-226): check admin (or exit)
first, then delegate to the bound backend. -/
def PackageManager.install (isAdmin : Bool) (k : BackendKind) (env : CmdEnv)
    (package version : PyArg) : PyResult ProcOutcome × List (List String) :=
  match OSUtils.checkAdminOrExit isAdmin with
  | some code => (.exited code, [])
  | none => liftRun (Backend.install k env package version)

/-- PackageManager.remove (source lines 228-231). -/
def PackageManager.remove (isAdmin : Bool) (k : BackendKind) (env : CmdEnv)
    (package : PyArg) : PyResult ProcOutcome × List (List String) :=
  match OSUtils.checkAdminOrExit isAdmin with
  | some code => (.exited code, [])
  | none => liftRun (Backend.remove k env package)

/-- PackageManager.update (source lines 233-236). -/
def PackageManager.update (isAdmin : Bool) (k : BackendKind) (env : CmdEnv) :
    PyResult ProcOutcome × List (List String) :=
  match OSUtils.checkAdminOrExit isAdmin with
  | some code => (.exited code, [])
  | none => liftRun (Backend.update k env)

/-- PackageManager.upgrade (source lines 238-241). -/
def PackageManager.upgrade (isAdmin : Bool) (k : BackendKind) (env : CmdEnv) :
    PyResult ProcOutcome × List (List String) :=
  match OSUtils.checkAdminOrExit isAdmin with
  | some code => (.exited code, [])
  | none => liftRun (Backend.upgrade k env)

/-- PackageManager.search (source lines 243-245): no admin check. -/
def PackageManager.search (k : BackendKind) (env : CmdEnv) (package : String) :
    PyResult String × List (List String) :=
  liftRun (Backend.search k env package)

/-- PackageManager.list_installed (source lines 247-249): no admin check. -/
def PackageManager.listInstalled (k : BackendKind) (env : CmdEnv) :
    PyResult String × List (List String) :=
  liftRun (Backend.listInstalled k env)

/-- One entry of the config's `packages` list; `pkg.get('name')` and
`pkg.get('version')` yield None when the key is absent (source line 256). -/
structure PkgEntry where
  name : Option String
  version : Option String
  deriving DecidableEq

/-- Parsed configuration shape: `config.get('packages', [])` (line 255). -/
structure Config where
  packages : List PkgEntry
  deriving DecidableEq

/-- The filesystem visible to `open()`: existing paths with their text. -/
abbrev FileSystem := List (String × String)

/-- Model of `open(path)` followed by a full read: the contents when the path
names an existing file, None otherwise (FileNotFoundError). -/
def fsRead (fs : FileSystem) (path : String) : Option String :=
  (fs.find? (fun e => e.1 == path)).map (·.2)

/-- A parser from file text to the config shape. -/
abbrev ConfigParser := String → Except PyExc Config

/-- Python `str.endswith(suffix)`: the suffix's characters end the string. -/
def pyEndsWith (s suffix : String) : Bool :=
  suffix.data.isSuffixOf s.data

/-- ConfigLoader.load (source lines 326-335): the file is opened first —
`FileNotFoundError` when the path names no file — and only then is the
extension examined; `.yaml`/`.yml` and `.json` dispatch to the respective
parser, and any other extension raises the BUILT-IN `ValueError` (line 335;
the source defines no dedicated format exception).  `yaml.safe_load` and
`json.load` are third-party library code absent from src/, so the two
parsers are taken as parameters. -/
def ConfigLoader.load (parseYaml parseJson : ConfigParser) (fs : FileSystem)
    (path : String) : Except PyExc Config :=
  match fsRead fs path with
  | none => .error .fileNotFoundError
  | some text =>
    if pyEndsWith path ".yaml" || pyEndsWith path ".yml" then parseYaml text
    else if pyEndsWith path ".json" then parseJson text
    else .error (.valueError "不支持的配置文件格式")

/-- The loop body of PackageManager.batch_install (source lines 255-256):
`self.install(pkg.get('name'), pkg.get('version'))` per entry, in file
order; an exception from one install aborts the loop and propagates. -/
def PackageManager.installEach (isAdmin : Bool) (k : BackendKind) (env : CmdEnv) :
    List PkgEntry → PyResult Unit × List (List String)
  | [] => (.ok (), [])
  | e :: rest =>
    match PackageManager.install isAdmin k env e.name e.version with
    | (.ok _, log) =>
      let r2 := PackageManager.installEach isAdmin k env rest
      (r2.1, log ++ r2.2)
    | (.exc ex, log) => (.exc ex, log)
    | (.exited c, log) => (.exited c, log)

/-- PackageManager.batch_install (source lines 251-256): admin check first,
then config load, then one facade install per entry. -/
def PackageManager.batchInstall (isAdmin : Bool) (k : BackendKind) (env : CmdEnv)
    (parseYaml parseJson : ConfigParser) (fs : FileSystem) (path : String) :
    PyResult Unit × List (List String) :=
  match OSUtils.checkAdminOrExit isAdmin with
  | some code => (.exited code, [])
  | none =>
    match ConfigLoader.load parseYaml parseJson fs path with
    | .error e => (.exc e, [])
    | .ok config => PackageManager.installEach isAdmin k env config.packages

/-- Transaction: executing one recorded action through the facade
(source lines 310-313; the stray `(@ref` text on lines 311/313 is a syntax
defect in the source — the evident intended calls
`self.pm.install(action[1], action[2])` / `self.pm.remove(action[1])` are
modelled). -/
def Transaction.execAction (isAdmin : Bool) (k : BackendKind) (env : CmdEnv) :
    Action → PyResult ProcOutcome × List (List String)
  | .install p v => PackageManager.install isAdmin k env p v
  | .remove p => PackageManager.remove isAdmin k env p

/-- Transaction.rollback (source lines 319-322): the body is `pass` — a stub
that issues no compensating command at all. -/
def Transaction.rollback : List (List String) := []

/-- Transaction.commit (source lines 305-317): execute actions in insertion
order; the first action that raises is recorded in `failed_actions`,
`rollback()` (a no-op) runs, and `TransactionError` is raised carrying that
(action, str(error)) pair.  A `sys.exit` (SystemExit) is not an `Exception`
subclass in Python and is therefore not caught by the `except` clause. -/
def Transaction.commit (isAdmin : Bool) (k : BackendKind) (env : CmdEnv) :
    List Action → PyResult Unit × List (List String)
  | [] => (.ok (), [])
  | a :: rest =>
    match Transaction.execAction isAdmin k env a with
    | (.ok _, log) =>
      let r2 := Transaction.commit isAdmin k env rest
      (r2.1, log ++ r2.2)
    | (.exc e, log) =>
      (.exc (.transactionError [(a, excStr e)]), log ++ Transaction.rollback)
    | (.exited c, log) => (.exited c, log)

/-- The parsed `/etc/os-release` mapping (source lines 32-44). -/
abbrev Distro := List (String × String)

/-- Python `dict.get(key, default)` over a dict built by iterating the file's
lines: a later occurrence of a key overwrites an earlier one. -/
def pyDictGet (d : Distro) (key dflt : String) : String :=
  match (d.filter (fun e => e.1 == key)).getLast? with
  | some e => e.2
  | none => dflt

/-- Containment of one character sequence in another: the needle is a prefix
of some suffix of the haystack (the empty needle is contained everywhere). -/
def charsContain (needle : List Char) : List Char → Bool
  | [] => needle.isEmpty
  | c :: rest => needle.isPrefixOf (c :: rest) || charsContain needle rest

/-- Python substring membership `pat in s`. -/
def strContains (s pat : String) : Bool :=
  charsContain pat.data s.data

/-- Python `str.lower()` (ASCII, which covers every keyword and ID tested). -/
def strLower (s : String) : String :=
  ⟨s.data.map Char.toLower⟩

/-- OSUtils.is_debian_based (source lines 46-50); `h = none` models an absent
`/etc/os-release` (get_distro returned None, so the conjunction is falsy). -/
def OSUtils.isDebianBased (h : Option Distro) : Bool :=
  match h with
  | none => false
  | some d =>
    strContains (strLower (pyDictGet d "ID" "")) "debian" ||
      strContains (strLower (pyDictGet d "ID" "")) "ubuntu"

/-- OSUtils.is_redhat_based (source lines 52-57). -/
def OSUtils.isRedhatBased (h : Option Distro) : Bool :=
  match h with
  | none => false
  | some d =>
    strContains (strLower (pyDictGet d "ID" "")) "rhel" ||
      strContains (strLower (pyDictGet d "ID" "")) "centos" ||
        strContains (strLower (pyDictGet d "ID" "")) "fedora"

/-- OSUtils.is_arch_based (source lines 59-62). -/
def OSUtils.isArchBased (h : Option Distro) : Bool :=
  match h with
  | none => false
  | some d => strContains (strLower (pyDictGet d "ID" "")) "arch"

/-- OSUtils.is_gentoo_based (source lines 64-67). -/
def OSUtils.isGentooBased (h : Option Distro) : Bool :=
  match h with
  | none => false
  | some d => strContains (strLower (pyDictGet d "ID" "")) "gentoo"

/-- The distribution families of the specification's data model (§3). -/
inductive Family where
  | debianLike
  | redhatLike
  | archLike
  | gentooLike
  | unknown
  deriving DecidableEq

/-- Spec-side classification (§4.1): families tested in the fixed priority
order debian, redhat, arch, gentoo; first match wins; no match (including an
absent descriptor) is `unknown`. -/
def classify (h : Option Distro) : Family :=
  if OSUtils.isDebianBased h then .debianLike
  else if OSUtils.isRedhatBased h then .redhatLike
  else if OSUtils.isArchBased h then .archLike
  else if OSUtils.isGentooBased h then .gentooLike
  else .unknown

/-- PackageManager._get_backend (source lines 212-221): debian- / redhat- /
arch-based map to the three backends; everything else — gentoo-based hosts
included, since the method never consults `is_gentoo_based` — raises
`UnsupportedDistributionError`. -/
def PackageManager.getBackend (h : Option Distro) : Except PyExc BackendKind :=
  if OSUtils.isDebianBased h then .ok .apt
  else if OSUtils.isRedhatBased h then .ok .dnf
  else if OSUtils.isArchBased h then .ok .pacman
  else .error (.unsupportedDistributionError "不支持的Linux发行版")

/-- The dependency-marker extraction of DependencyResolver._resolve_apt
(source lines 277-278): when the marker `依赖:` occurs in the line
(equivalently: splitting on it yields at least two parts), take the part
after the first occurrence (`line.split('依赖:')[1]`) and strip it. -/
def extractAptDep (line : String) : Option String :=
  match line.splitOn "依赖:" with
  | _ :: second :: _ => some second.trim
  | _ => none

/-- The `if dep not in dependencies: dependencies.append(dep)` step of
_resolve_apt (source lines 279-280). -/
def depStep (deps : List String) (dep : String) : List String :=
  if dep ∈ deps then deps else deps ++ [dep]

/-- The accumulator step of _resolve_apt's loop (source lines 276-280):
append a newly extracted dependency only when not already collected. -/
def aptStep (deps : List String) (line : String) : List String :=
  match extractAptDep line with
  | some dep => depStep deps dep
  | none => deps

/-- DependencyResolver._resolve_apt's parse of the query's stdout (source
lines 275-281): iterate `result.stdout.split('\n')` with `aptStep`. -/
def DependencyResolver.resolveAptText (stdout : String) : List String :=
  (stdout.splitOn "\n").foldl aptStep []

/-- Python `str.splitlines()` restricted to `\n` line boundaries (the only
separator in the tool outputs concerned): split on `\n`, dropping the final
empty piece a trailing newline would produce. -/
def pySplitlines (s : String) : List String :=
  let parts := s.splitOn "\n"
  if parts.getLast? == some "" then parts.dropLast else parts

/-- DependencyResolver._resolve_dnf's parse (source line 286):
`result.stdout.splitlines()` — every line verbatim, in order. -/
def DependencyResolver.resolveDnfText (stdout : String) : List String :=
  pySplitlines stdout

/-- DependencyResolver._resolve_pacman's parse (source line 291):
`result.stdout.splitlines()` — every line verbatim, in order. -/
def DependencyResolver.resolvePacmanText (stdout : String) : List String :=
  pySplitlines stdout

/-- The read-only query argv each resolver variant runs
(source lines 273, 284, 289). -/
def resolveQueryCmd (k : BackendKind) (package : String) : List String :=
  match k with
  | .apt => ["apt-cache", "depends", package]
  | .dnf => ["dnf", "repoquery", "--requires", package]
  | .pacman => ["pactree", package]

/-- DependencyResolver.resolve (source lines 263-291): run the family's query
(captured, no `check`) and parse its stdout with the family's parser. -/
def DependencyResolver.resolve (k : BackendKind) (env : CmdEnv) (package : String) :
    List String × List (List String) :=
  let args := resolveQueryCmd k package
  let out := (env args).stdout
  match k with
  | .apt => (DependencyResolver.resolveAptText out, [args])
  | .dnf => (DependencyResolver.resolveDnfText out, [args])
  | .pacman => (DependencyResolver.resolvePacmanText out, [args])

/-- One mutating backend operation with its (string) arguments, used to state
the backend failure contract uniformly. -/
inductive MutOp where
  | installOp (package : String) (version : Option String)
  | removeOp (package : String)
  | updateOp
  | upgradeOp
  deriving DecidableEq

/-- The family's version-qualifier joiner (spec §4.2: APT `name=version`,
DNF and Pacman `name-version`). -/
def versionJoiner : BackendKind → String
  | .apt => "="
  | .dnf => "-"
  | .pacman => "-"

/-- The base install argv of the family. -/
def installBase : BackendKind → List String
  | .apt => ["sudo", "apt", "install", "-y"]
  | .dnf => ["sudo", "dnf", "install", "-y"]
  | .pacman => ["sudo", "pacman", "-S", "--noconfirm"]

/-- The package token an install builds for a plain string package name. -/
def installToken (k : BackendKind) (p : String) (v : Option String) : String :=
  if pyTruthy v then p ++ versionJoiner k ++ pyStr v else p

/-- The argv (as plain strings) each mutating operation executes, for string
arguments. -/
def mutArgs (k : BackendKind) : MutOp → List String
  | .installOp p v => installBase k ++ [installToken k p v]
  | .removeOp p =>
    match k with
    | .apt => ["sudo", "apt", "remove", "-y", p]
    | .dnf => ["sudo", "dnf", "remove", "-y", p]
    | .pacman => ["sudo", "pacman", "-R", "--noconfirm", p]
  | .updateOp => updateCmd k
  | .upgradeOp => upgradeCmd k

/-- Run one mutating backend operation (string arguments). -/
def runMutOp (k : BackendKind) (env : CmdEnv) :
    MutOp → Except PyExc ProcOutcome × List (List String)
  | .installOp p v => Backend.install k env (some p) v
  | .removeOp p => Backend.remove k env (some p)
  | .updateOp => Backend.update k env
  | .upgradeOp => Backend.upgrade k env

/-- Spec-side first-occurrence de-duplication: keep each string the first
time it appears, drop every later duplicate. -/
def dedupFirst : List String → List String
  | [] => []
  | x :: xs => x :: dedupFirst (xs.filter (fun y => decide (y ≠ x)))
  termination_by l => l.length
  decreasing_by
    simp only [List.length_cons]
    exact Nat.lt_succ_of_le (List.length_filter_le _ _)

/-- The dependency identifiers extracted from an apt-cache output, in order
of occurrence, duplicates included. -/
def aptDeps (stdout : String) : List String :=
  (stdout.splitOn "\n").filterMap extractAptDep

/-- Projection of the `failed_actions` carried by a raised TransactionError. -/
def failedActionsOf : PyResult Unit → Option (List Action)
  | .exc (.transactionError l) => some (l.map Prod.fst)
  | _ => none

/-- Environment for the C1 scenario: Install(B) fails with exit status 100,
every other command succeeds. -/
def env1 : CmdEnv := fun args =>
  if args = ["sudo", "apt", "install", "-y", "B"] then
    ⟨100, "", "E: Unable to locate package B"⟩
  else ⟨0, "", ""⟩

/-- The C1 transaction: actions Install(A), Install(B), Remove(C) in
insertion order. -/
def txActions : List Action :=
  [.install (some "A") none, .install (some "B") none, .remove (some "C")]

/-- An environment in which every command succeeds. -/
def envOk : CmdEnv := fun _ => ⟨0, "", ""⟩

/-- An environment in which every command fails with exit status 1 and
produced stderr text "boom". -/
def env4 : CmdEnv := fun _ => ⟨1, "", "boom"⟩

/-- A parser yielding an empty package list (unused branch filler). -/
def parseNone : ConfigParser := fun _ => .ok ⟨[]⟩

/-- A parser yielding one entry that lacks the `name` key but has a version. -/
def parseC7 : ConfigParser := fun _ => .ok ⟨[⟨none, some "1.0"⟩]⟩

/-- A parser yielding one entry that lacks both `name` and `version`. -/
def parseC7b : ConfigParser := fun _ => .ok ⟨[⟨none, none⟩]⟩

/-- A filesystem holding one YAML config file. -/
def fsC7 : FileSystem := [("packages.yaml", "packages:\n  - version: 1.0\n")]

lemma foldl_depStep (ds : List String) : ∀ acc : List String,
    ds.foldl depStep acc = acc ++ dedupFirst (ds.filter (fun d => decide (d ∉ acc))) := by
  induction ds with
  | nil => intro acc; simp [dedupFirst]
  | cons d rest ih =>
    intro acc
    simp only [List.foldl_cons]
    by_cases hd : d ∈ acc
    · have hcons : (d :: rest).filter (fun x => decide (x ∉ acc))
          = rest.filter (fun x => decide (x ∉ acc)) := by simp [hd]
      rw [hcons]
      simp only [depStep, if_pos hd]
      exact ih acc
    · have hcons : (d :: rest).filter (fun x => decide (x ∉ acc))
          = d :: rest.filter (fun x => decide (x ∉ acc)) := by simp [hd]
      rw [hcons]
      simp only [depStep, if_neg hd]
      rw [ih (acc ++ [d])]
      simp only [dedupFirst]
      have hfil : rest.filter (fun x => decide (x ∉ acc ++ [d]))
          = (rest.filter (fun x => decide (x ∉ acc))).filter (fun y => decide (y ≠ d)) := by
        rw [List.filter_filter]
        apply List.filter_congr
        intro x _
        by_cases h1 : x = d
        · simp [h1]
        · by_cases h2 : x ∈ acc <;> simp [h1, h2]
      rw [hfil]
      simp [List.append_assoc]

lemma foldl_aptStep_eq (lines : List String) : ∀ acc : List String,
    lines.foldl aptStep acc = (lines.filterMap extractAptDep).foldl depStep acc := by
  induction lines with
  | nil => intro acc; rfl
  | cons l rest ih =>
    intro acc
    simp only [List.foldl_cons, List.filterMap_cons]
    cases h : extractAptDep l with
    | none => simp only [aptStep, h]; exact ih acc
    | some dep => simp only [aptStep, h, List.foldl_cons]; exact ih (depStep acc dep)

lemma mem_dedupFirst : ∀ (l : List String) (a : String), a ∈ dedupFirst l ↔ a ∈ l := by
  intro l
  induction l using dedupFirst.induct with
  | case1 => intro a; simp [dedupFirst]
  | case2 x xs ih =>
    intro a
    simp only [dedupFirst, List.mem_cons]
    rw [ih]
    simp only [List.mem_filter]
    by_cases h : a = x
    · simp [h]
    · simp [h]

lemma dedupFirst_nodup : ∀ l : List String, (dedupFirst l).Nodup := by
  intro l
  induction l using dedupFirst.induct with
  | case1 => simp [dedupFirst]
  | case2 x xs ih =>
    simp only [dedupFirst]
    refine List.nodup_cons.mpr ⟨?_, ih⟩
    intro hx
    have := (mem_dedupFirst _ _).mp hx
    simp at this

/-- Claim C1 (code evaluation): for the transaction
[Install(A), Install(B), Remove(C)] where Install(B)'s command exits 100 and
every other command would succeed, commit (run as admin against the APT
backend) raises TransactionError whose failed_actions names Install(B) — but
the only commands ever executed are the two installs: the stubbed rollback
issues NO compensating Remove(A), contradicting the claim; Remove(C) is
indeed never attempted. -/
theorem claim_C1_code_eval :
    failedActionsOf (Transaction.commit true .apt env1 txActions).1
        = some [Action.install (some "B") none]
    ∧ (Transaction.commit true .apt env1 txActions).2
        = [["sudo", "apt", "install", "-y", "A"], ["sudo", "apt", "install", "-y", "B"]]
    ∧ ["sudo", "apt", "remove", "-y", "A"] ∉ (Transaction.commit true .apt env1 txActions).2
    ∧ ["sudo", "apt", "remove", "-y", "C"] ∉ (Transaction.commit true .apt env1 txActions).2 := by
  exact ⟨by decide, by decide, by decide, by decide⟩

/-- Claim C2 (confirmed): every mutating facade operation — install, remove,
update, upgrade, batch_install — invoked without admin privilege exits the
process with the fixed status 1 and executes no external command at all,
for every backend, environment, argument and config file. -/
theorem claim_C2 (k : BackendKind) (env : CmdEnv) (p v : PyArg)
    (py pj : ConfigParser) (fs : FileSystem) (path : String) :
    PackageManager.install false k env p v = (.exited 1, [])
    ∧ PackageManager.remove false k env p = (.exited 1, [])
    ∧ PackageManager.update false k env = (.exited 1, [])
    ∧ PackageManager.upgrade false k env = (.exited 1, [])
    ∧ PackageManager.batchInstall false k env py pj fs path = (.exited 1, []) :=
  ⟨rfl, rfl, rfl, rfl, rfl⟩

/-- Claim C3 (counterexample): for the non-None version `""` (an empty
string, which Python's `if version:` treats as falsy) APTBackend.install
builds the bare token `pkg`, not the token `pkg=` the claim requires for
every non-None version. -/
theorem claim_C3_counterexample :
    APTBackend.installCmd (some "pkg") (some "")
        = strCmd ["sudo", "apt", "install", "-y", "pkg"]
    ∧ APTBackend.installCmd (some "pkg") (some "")
        ≠ strCmd ["sudo", "apt", "install", "-y", "pkg="] := by
  exact ⟨by decide, by decide⟩

/-- Claim C3 (amended): for every package name and every non-None, NON-EMPTY
version, APT builds the token name=version while DNF and Pacman build
name-version; for version None — and likewise for the falsy empty-string
version — all three backends use the bare name token. -/
theorem claim_C3_amended (p s : String) (hs : s ≠ "") :
    APTBackend.installCmd (some p) (some s)
        = strCmd ["sudo", "apt", "install", "-y"] ++ [some (p ++ "=" ++ s)]
    ∧ DNFBackend.installCmd (some p) (some s)
        = strCmd ["sudo", "dnf", "install", "-y"] ++ [some (p ++ "-" ++ s)]
    ∧ PacmanBackend.installCmd (some p) (some s)
        = strCmd ["sudo", "pacman", "-S", "--noconfirm"] ++ [some (p ++ "-" ++ s)]
    ∧ APTBackend.installCmd (some p) none
        = strCmd ["sudo", "apt", "install", "-y"] ++ [some p]
    ∧ DNFBackend.installCmd (some p) none
        = strCmd ["sudo", "dnf", "install", "-y"] ++ [some p]
    ∧ PacmanBackend.installCmd (some p) none
        = strCmd ["sudo", "pacman", "-S", "--noconfirm"] ++ [some p]
    ∧ APTBackend.installCmd (some p) (some "")
        = strCmd ["sudo", "apt", "install", "-y"] ++ [some p]
    ∧ DNFBackend.installCmd (some p) (some "")
        = strCmd ["sudo", "dnf", "install", "-y"] ++ [some p]
    ∧ PacmanBackend.installCmd (some p) (some "")
        = strCmd ["sudo", "pacman", "-S", "--noconfirm"] ++ [some p] := by
  have ht : pyTruthy (some s) = true := by
    simp [pyTruthy, hs]
  refine ⟨?_, ?_, ?_, ?_, ?_, ?_, ?_, ?_, ?_⟩ <;>
    simp [APTBackend.installCmd, DNFBackend.installCmd, PacmanBackend.installCmd,
      ht, pyStr] <;>
    simp [pyTruthy]

/-- Claim C3 witness: the amended statement applied at package `pkg`,
version `1.0`. -/
theorem claim_C3_witness :
    APTBackend.installCmd (some "pkg") (some "1.0")
        = strCmd ["sudo", "apt", "install", "-y"] ++ [some "pkg=1.0"]
    ∧ DNFBackend.installCmd (some "pkg") (some "1.0")
        = strCmd ["sudo", "dnf", "install", "-y"] ++ [some "pkg-1.0"] :=
  ⟨(claim_C3_amended "pkg" "1.0" (by decide)).1,
   (claim_C3_amended "pkg" "1.0" (by decide)).2.1⟩

/-- Claim C4 (amended): for every backend and every mutating operation whose
process exits non-zero, the call fails with CalledProcessError carrying the
command and the exit status — the failure is never caught or suppressed —
but the error's stderr field is None: stderr is not captured by these
invocations (no capture_output), so the claim's "captured stderr" is absent. -/
theorem claim_C4_amended (k : BackendKind) (env : CmdEnv) (op : MutOp)
    (h : (env (mutArgs k op)).exitCode ≠ 0) :
    runMutOp k env op =
      (.error (.calledProcessError (mutArgs k op) ((env (mutArgs k op)).exitCode) none),
       [mutArgs k op]) := by
  cases op with
  | installOp p v =>
    cases k <;> cases hv : pyTruthy v <;>
      simp_all [runMutOp, Backend.install, subprocessRun, installCmd,
        APTBackend.installCmd, DNFBackend.installCmd, PacmanBackend.installCmd,
        mutArgs, installBase, installToken, versionJoiner, strCmd, allStrings, pyStr]
  | removeOp p =>
    cases k <;>
      simp_all [runMutOp, Backend.remove, subprocessRun, removeCmd,
        mutArgs, strCmd, allStrings]
  | updateOp =>
    cases k <;>
      simp_all [runMutOp, Backend.update, subprocessRun, updateCmd,
        mutArgs, strCmd, allStrings]
  | upgradeOp =>
    cases k <;>
      simp_all [runMutOp, Backend.upgrade, subprocessRun, upgradeCmd,
        mutArgs, strCmd, allStrings]

/-- Claim C4 witness: the amended statement applied to an APT install whose
process exits 1. -/
theorem claim_C4_witness :
    runMutOp .apt env4 (.installOp "pkg" (some "1.0"))
      = (.error (.calledProcessError ["sudo", "apt", "install", "-y", "pkg=1.0"] 1 none),
         [["sudo", "apt", "install", "-y", "pkg=1.0"]]) := by
  have h := claim_C4_amended .apt env4 (.installOp "pkg" (some "1.0")) (by decide)
  exact h

/-- Claim C4 (counterexample): the process at this input produced stderr text
"boom", yet the raised error carries stderr None — not the captured stderr
the claim asserts. -/
theorem claim_C4_counterexample :
    runMutOp .apt env4 (.installOp "pkg" none)
      = (.error (.calledProcessError ["sudo", "apt", "install", "-y", "pkg"] 1 none),
         [["sudo", "apt", "install", "-y", "pkg"]])
    ∧ (env4 ["sudo", "apt", "install", "-y", "pkg"]).stderr = "boom"
    ∧ PyExc.calledProcessError ["sudo", "apt", "install", "-y", "pkg"] 1 none
        ≠ PyExc.calledProcessError ["sudo", "apt", "install", "-y", "pkg"] 1 (some "boom") := by
  exact ⟨by decide, by decide, by decide⟩

/-- Claim C5 (confirmed): for every dependency-query output text, the APT
resolver returns exactly the first-occurrence de-duplication of the
extracted dependency identifiers — so each appears at most once, first
occurrence kept — while the DNF and Pacman resolvers return every output
line verbatim, in order, duplicates preserved (they are the identity on the
split lines). -/
theorem claim_C5 (stdout : String) :
    DependencyResolver.resolveAptText stdout = dedupFirst (aptDeps stdout)
    ∧ (DependencyResolver.resolveAptText stdout).Nodup
    ∧ (∀ d, d ∈ DependencyResolver.resolveAptText stdout ↔ d ∈ aptDeps stdout)
    ∧ DependencyResolver.resolveDnfText stdout = pySplitlines stdout
    ∧ DependencyResolver.resolvePacmanText stdout = pySplitlines stdout := by
  have h1 : DependencyResolver.resolveAptText stdout = dedupFirst (aptDeps stdout) := by
    unfold DependencyResolver.resolveAptText aptDeps
    rw [foldl_aptStep_eq, foldl_depStep]
    simp only [List.nil_append]
    congr 1
    apply List.filter_eq_self.mpr
    intro a _
    simp
  refine ⟨h1, h1 ▸ dedupFirst_nodup _, ?_, rfl, rfl⟩
  intro d
  rw [h1, mem_dedupFirst]

/-- Claim C6 (counterexample): loading an existing file with extension
`.txt` fails with the BUILT-IN ValueError — the source defines no
UnsupportedFormatError class at all, so the claim's stated exception is not
what is raised. -/
theorem claim_C6_counterexample :
    ConfigLoader.load parseNone parseNone [("packages.txt", "x")] "packages.txt"
        = .error (.valueError "不支持的配置文件格式")
    ∧ (Except.error (PyExc.valueError "不支持的配置文件格式") : Except PyExc Config)
        ≠ .error .unsupportedFormatError := by
  exact ⟨by decide, by decide⟩

/-- Claim C6 (amended): for every path naming an existing file whose
extension is none of .yaml, .yml, .json, ConfigLoader.load fails with the
built-in ValueError("不支持的配置文件格式") — the unsupported-format error
of the source; for a non-existing path FileNotFoundError preempts it. -/
theorem claim_C6_amended (py pj : ConfigParser) (fs : FileSystem) (path text : String)
    (hfile : fsRead fs path = some text)
    (h1 : pyEndsWith path ".yaml" = false)
    (h2 : pyEndsWith path ".yml" = false)
    (h3 : pyEndsWith path ".json" = false) :
    ConfigLoader.load py pj fs path = .error (.valueError "不支持的配置文件格式") := by
  unfold ConfigLoader.load
  rw [hfile]
  simp [h1, h2, h3]

/-- Claim C6 witness: the amended statement applied at `packages.txt`. -/
theorem claim_C6_witness :
    ConfigLoader.load parseNone parseNone [("packages.txt", "x")] "packages.txt"
        = .error (.valueError "不支持的配置文件格式") :=
  claim_C6_amended parseNone parseNone [("packages.txt", "x")] "packages.txt" "x"
    (by decide) (by decide) (by decide) (by decide)

/-- Claim C7 (code evaluation): with a loaded config whose single packages
entry lacks `name` but carries version 1.0, batch_install (as admin, APT
backend, all commands succeeding) does NOT fail with a descriptive error: it
proceeds and executes `sudo apt install -y None=1.0`, installing the
stringified absent name.  With neither name nor version, it instead dies
with subprocess's TypeError about NoneType — not a config-validation error. -/
theorem claim_C7_code_eval :
    PackageManager.batchInstall true .apt envOk parseC7 parseC7 fsC7 "packages.yaml"
        = (.ok (), [["sudo", "apt", "install", "-y", "None=1.0"]])
    ∧ PackageManager.batchInstall true .apt envOk parseC7b parseC7b fsC7 "packages.yaml"
        = (.exc (.typeError "expected str, bytes or os.PathLike object, not NoneType"), []) := by
  exact ⟨by decide, by decide⟩

/-- Claim C8 (confirmed): whenever the detected distribution classifies as
gentoo-like or as no known family — including an absent descriptor file,
modelled as `none` — facade construction's backend selection raises
UnsupportedDistributionError. -/
theorem claim_C8 (h : Option Distro)
    (hfam : classify h = .gentooLike ∨ classify h = .unknown) :
    PackageManager.getBackend h
      = .error (.unsupportedDistributionError "不支持的Linux发行版") := by
  unfold classify at hfam
  unfold PackageManager.getBackend
  cases hd : OSUtils.isDebianBased h <;> cases hr : OSUtils.isRedhatBased h <;>
    cases ha : OSUtils.isArchBased h <;> simp_all

/-- Claim C8 witness: applied at a gentoo descriptor and at an absent
descriptor file. -/
theorem claim_C8_witness :
    (classify (some [("ID", "gentoo")]) = Family.gentooLike
      ∧ PackageManager.getBackend (some [("ID", "gentoo")])
          = .error (.unsupportedDistributionError "不支持的Linux发行版"))
    ∧ (classify (none : Option Distro) = Family.unknown
      ∧ PackageManager.getBackend none
          = .error (.unsupportedDistributionError "不支持的Linux发行版")) :=
  ⟨⟨by decide, claim_C8 (some [("ID", "gentoo")]) (Or.inl (by decide))⟩,
   ⟨by decide, claim_C8 none (Or.inr (by decide))⟩⟩

/-- Claim C9 (confirmed): for every backend, every search term and every
environment — including any non-zero exit status — search and list_installed
return the captured stdout text and never raise and never exit. -/
theorem claim_C9 (k : BackendKind) (env : CmdEnv) (p : String) :
    PackageManager.search k env p
        = (.ok (env (searchCmd k p)).stdout, [searchCmd k p])
    ∧ PackageManager.listInstalled k env
        = (.ok (env (listInstalledCmd k)).stdout, [listInstalledCmd k]) := by
  cases k <;> exact ⟨rfl, rfl⟩

/-- Claim C10 (confirmed): for every path that names no existing file,
ConfigLoader.load raises FileNotFoundError regardless of the extension, and
conversely the unsupported-format ValueError can only arise once the file
was opened successfully. -/
theorem claim_C10 (py pj : ConfigParser) (fs : FileSystem) (path : String) :
    (fsRead fs path = none → ConfigLoader.load py pj fs path = .error .fileNotFoundError)
    ∧ (∀ msg, ConfigLoader.load py pj fs path = .error (.valueError msg) →
        fsRead fs path ≠ none) := by
  constructor
  · intro h
    unfold ConfigLoader.load
    rw [h]
  · intro msg hload hnone
    unfold ConfigLoader.load at hload
    rw [hnone] at hload
    simp at hload

/-- Claim C10 witness: applied at an empty filesystem and a `.yaml` path. -/
theorem claim_C10_witness :
    ConfigLoader.load parseNone parseNone [] "packages.yaml" = .error .fileNotFoundError :=
  (claim_C10 parseNone parseNone [] "packages.yaml").1 rfl

end MtosmePkg
